import Mathlib

/-!
Verification development for the ml-aws-template scaffolding script,
src/.projenrc.js. The definitions below are a shallow embedding of that
script: its template-reading helper (sequential regex replacement with
JavaScript replacement-string semantics), the environment-derived options
of its PythonProject construction, its dependency manifest literals, the
arguments of its file registrations, and a statement-level model of its
top-level evaluation (which dereferences the unbound identifier projen).
Theorems settle the claims against these definitions.
-/

namespace Projenrc

/-- JavaScript replacement-string semantics (ECMA-262 GetSubstitution) for
the regexes this script builds, which have no capture groups: two dollar
signs give a literal dollar, dollar-ampersand inserts the matched text,
dollar-backtick the portion of the original input before the match,
dollar-quote the portion after it; every other character — including a
dollar-digit sequence, which has no group to refer to — is copied
literally. The backtick and quote characters are written by code point. -/
def expandRepl (matched before after : List Char) : List Char → List Char
  | [] => []
  | '$' :: '$' :: rest => '$' :: expandRepl matched before after rest
  | '$' :: '&' :: rest => matched ++ expandRepl matched before after rest
  | '$' :: c :: rest =>
    if c = Char.ofNat 96 then before ++ expandRepl matched before after rest
    else if c = Char.ofNat 39 then after ++ expandRepl matched before after rest
    else '$' :: c :: expandRepl matched before after rest
  | c :: rest => c :: expandRepl matched before after rest

/-- Source: the replace call of readTemplate (src/.projenrc.js line 11).
The built regex matches the token literally (its braces form no valid
quantifier, hence are literal), the g flag scans left to right without
rescanning replaced output, and the replacement string is expanded per
GetSubstitution. The accumulator holds the consumed original prefix (for
dollar-backtick) and the fuel is the input length, which suffices because
every step consumes at least one character for the nonempty tokens this
script builds. -/
def replaceAllAux (tok repl : List Char) :
    Nat → List Char → List Char → List Char
  | _, _, [] => []
  | 0, _, rest => rest
  | fuel + 1, before, c :: rest =>
    if tok.isPrefixOf (c :: rest) then
      expandRepl tok before ((c :: rest).drop tok.length) repl ++
        replaceAllAux tok repl fuel (before ++ tok) ((c :: rest).drop tok.length)
    else
      c :: replaceAllAux tok repl fuel (before ++ [c]) rest

/-- One global literal-token replacement over a string. -/
def jsReplaceAll (tok repl s : String) : String :=
  String.mk (replaceAllAux tok.data repl.data s.length [] s.data)

/-- Source: the regex literal built at line 11 — two opening braces, a
space, the key, a space, two closing braces. -/
def tokenFor (key : String) : String :=
  "\x7b\x7b " ++ key ++ " \x7d\x7d"

/-- Source: the Object.entries loop of readTemplate (src/.projenrc.js
lines 10-12) — the replacements are applied sequentially in entry
(insertion) order, each pass over the result of the previous one. A key
with no occurrence changes nothing, and a placeholder with no key is left
in place: the loop performs no completeness check. -/
def renderTemplate (replacements : List (String × String))
    (content : String) : String :=
  replacements.foldl (fun c kv => jsReplaceAll (tokenFor kv.1) kv.2 c) content

/-- Source: the path join of readTemplate (src/.projenrc.js line 9): the
supplied filename is joined under the template_configs directory. The
arguments this script passes have no separators or dot segments needing
normalization, so the join is plain concatenation with a slash. -/
def templatePath (filename : String) : String :=
  "template_configs/" ++ filename

/-- Source: readTemplate (src/.projenrc.js lines 8-14) as this script
calls it (asString is true at every call site, so the string result is
returned): read the joined path from the template store — none models the
readFileSync throw for a missing file — and apply the sequential
substitutions. -/
def readTemplate (store : String → Option String) (filename : String)
    (replacements : List (String × String)) : Option String :=
  (store (templatePath filename)).map (renderTemplate replacements)

/-- Whether the token occurs in the text, by the same left-to-right scan
replaceAllAux performs. -/
def containsSeq (tok : List Char) : List Char → Bool
  | [] => false
  | c :: rest => tok.isPrefixOf (c :: rest) || containsSeq tok rest

/-- Whether the delimited placeholder token of a key occurs in a string. -/
def containsToken (key content : String) : Bool :=
  containsSeq (tokenFor key).data content.data

theorem replaceAllAux_no_occurrence (tok repl : List Char) (fuel : Nat)
    (before rest : List Char) (h : containsSeq tok rest = false) :
    replaceAllAux tok repl fuel before rest = rest := by
  induction fuel generalizing before rest with
  | zero => cases rest with | nil => rfl | cons c cs => rfl
  | succ n ih =>
    cases rest with
    | nil => rfl
    | cons c cs =>
      rw [containsSeq, Bool.or_eq_false_iff] at h
      simp only [replaceAllAux, h.1]
      simp only [Bool.false_eq_true, if_false]
      rw [ih (before ++ [c]) cs h.2]

theorem jsReplaceAll_no_occurrence (tok repl s : String)
    (h : containsSeq tok.data s.data = false) : jsReplaceAll tok repl s = s := by
  rw [jsReplaceAll, replaceAllAux_no_occurrence tok.data repl.data s.length [] s.data h]

theorem renderTemplate_no_occurrence (reps : List (String × String))
    (content : String)
    (h : ∀ p ∈ reps, containsToken p.1 content = false) :
    renderTemplate reps content = content := by
  induction reps with
  | nil => rfl
  | cons kv rest ih =>
    have h0 : containsToken kv.1 content = false := h kv (List.mem_cons_self _ _)
    rw [containsToken] at h0
    unfold renderTemplate
    rw [List.foldl_cons, jsReplaceAll_no_occurrence _ _ _ h0]
    exact ih (fun p hp => h p (List.mem_cons_of_mem _ hp))

/-- Source: the JavaScript logical-or with a string default, as written at
lines 17, 19 and 20 of src/.projenrc.js — the left operand when it is set
and nonempty (truthy), the default otherwise. -/
def jsOrString (v : Option String) (dflt : String) : String :=
  match v with
  | none => dflt
  | some s => if s = "" then dflt else s

/-- Source: src/.projenrc.js line 17. -/
def authorNameValue (env : String → Option String) : String :=
  jsOrString (env ("AUTHOR_NAME")) ("My Name")

/-- Source: src/.projenrc.js line 19 — the module name is the MODULE_NAME
environment value when set and nonempty, and the constant my_ml_project
otherwise; the project name plays no part. -/
def moduleNameValue (env : String → Option String) : String :=
  jsOrString (env ("MODULE_NAME")) ("my_ml_project")

/-- Source: src/.projenrc.js line 20. -/
def projectNameValue (env : String → Option String) : String :=
  jsOrString (env ("PROJECT_NAME")) ("my-ml-project")

/-- A JavaScript value as it reaches a PythonProject option: a string, or
a number carried as the unsigned 32-bit pattern of an int32 result (every
value arising here is below 2 to the 31st, so the sign is immaterial). -/
inductive JsValue where
  | str (s : String)
  | num (n : Nat)
deriving DecidableEq, Repr

/-- The value of a nonempty decimal-digit string. -/
def decimalValue (cs : List Char) : Nat :=
  cs.foldl (fun acc c => acc * 10 + (c.toNat - 48)) 0

/-- JavaScript ToInt32 of ToNumber for the operand shapes at line 18 of
src/.projenrc.js (undefined or a string): undefined and non-numeric
strings — every e-mail address among them — coerce through NaN to 0, and
a plain decimal numeral takes its value modulo 2 to the 32nd; other
numeric syntaxes (signs, fractions, exponents, hex, surrounding
whitespace) do not occur among this script's operands and are outside the
model. -/
def jsToInt32 (v : Option String) : Nat :=
  match v with
  | none => 0
  | some s =>
    if !s.data.isEmpty && s.data.all Char.isDigit then
      decimalValue s.data % 2 ^ 32
    else 0

/-- Source: src/.projenrc.js line 18 — authorEmail is computed with the
BITWISE or (a single pipe, unlike the logical-or of the surrounding
lines): both operands coerce to int32 and the option receives a number,
never a string. The default string is non-numeric, so its bit pattern
is 0. -/
def authorEmailValue (env : String → Option String) : JsValue :=
  JsValue.num
    (Nat.lor (jsToInt32 (env ("AUTHOR_MAIL")))
      (jsToInt32 (some "my-email@email.com")))

/-- Source: the deps list of the PythonProject options (src/.projenrc.js
lines 25-40), verbatim and in order. -/
def deps : List String :=
  ["pytorch-lightning", "torch", "torchvision", "torchmetrics", "mlflow",
   "dvc", "boto3", "matplotlib", "numpy", "tqdm", "onnx",
   "onnxruntime-gpu", "python-dotenv", "gitpython"]

/-- Source: poetry.optionalDependencies (src/.projenrc.js lines 44-46) —
the only optional group is s3_storage. -/
def optionalDependencies : List (String × List String) :=
  [("s3_storage", ["dvc[s3]"])]

/-- Source: poetry.dev.dependencies (src/.projenrc.js lines 48-54). -/
def devDependencies : List (String × String) :=
  [("pytest", "^7.0.0"), ("pytest-cov", "^4.0.0")]

/-- Source: the first arguments passed to readTemplate at the five
TextFile registrations (src/.projenrc.js lines 89, 94, 99, 104, 109) —
each already carries the template_configs/ segment. -/
def configTemplateArgs : List String :=
  ["template_configs/dvc.yaml", "template_configs/params.yaml",
   "template_configs/environment.env", "template_configs/circleci_config.yml",
   "template_configs/Dockerfile"]

/-- Source: the first arguments passed to readTemplate at the SampleFile
stub registrations (src/.projenrc.js lines 121, 124, 128, 132, 136,
141) — plain src/ paths without the template_configs/ segment. -/
def stubTemplateArgs : List String :=
  ["src/model/model.py", "src/data/datamodule.py", "src/register_model.py",
   "src/data/preprocess.py", "src/train.py", "src/export_and_benchmark.py"]

/-- A JavaScript runtime error this script can raise at its top level. -/
inductive ScriptError where
  | referenceError (ident : String)
deriving DecidableEq, Repr

/-- One top-level statement of src/.projenrc.js, reduced to what the run
model needs: the free identifiers the statement dereferences in
evaluation order, the bindings it introduces, the destination paths of
the file objects it registers, and whether it is the synth call. -/
structure Stmt where
  uses : List String
  binds : List String
  registers : List String
  synth : Bool
deriving DecidableEq, Repr

/-- Source: the top-level statements of src/.projenrc.js in source order.
The globals require, process and console are ambient and the function
declaration readTemplate is hoisted; line 2 destructures only python,
TextFile and SampleFile from the require result, so no statement binds
projen, which line 81 dereferences (before touching project). Destination
paths interpolating the moduleName variable are recorded with the
source's dollar-brace template syntax. -/
def scriptStatements : List Stmt :=
  [{ uses := ["require"], binds := ["python", "TextFile", "SampleFile"],
     registers := [], synth := false },
   { uses := ["require"], binds := ["fs"], registers := [], synth := false },
   { uses := ["require"], binds := ["path"], registers := [], synth := false },
   { uses := ["python", "process"], binds := ["project"], registers := [],
     synth := false },
   { uses := ["project"], binds := ["moduleName"], registers := [],
     synth := false },
   { uses := ["console", "project"], binds := [], registers := [],
     synth := false },
   { uses := ["projen", "project"], binds := ["github"], registers := [],
     synth := false },
   { uses := ["console", "project"], binds := [], registers := [],
     synth := false },
   { uses := ["TextFile", "project", "readTemplate", "moduleName"],
     binds := [], registers := ["dvc.yaml"], synth := false },
   { uses := ["TextFile", "project", "readTemplate"], binds := [],
     registers := ["params.yaml"], synth := false },
   { uses := ["TextFile", "project", "readTemplate"], binds := [],
     registers := [".env.example"], synth := false },
   { uses := ["TextFile", "project", "readTemplate", "moduleName"],
     binds := [], registers := [".circleci/config.yml"], synth := false },
   { uses := ["TextFile", "project", "readTemplate", "moduleName"],
     binds := [], registers := ["Dockerfile"], synth := false },
   { uses := ["SampleFile", "project", "moduleName"], binds := [],
     registers := ["src/$\x7bmoduleName\x7d/__init__.py"], synth := false },
   { uses := ["SampleFile", "project", "moduleName"], binds := [],
     registers := ["src/$\x7bmoduleName\x7d/data/__init__.py"], synth := false },
   { uses := ["SampleFile", "project", "moduleName"], binds := [],
     registers := ["src/$\x7bmoduleName\x7d/model/__init__.py"], synth := false },
   { uses := ["SampleFile", "project", "readTemplate", "moduleName"],
     binds := [], registers := ["src/$\x7bmoduleName\x7d/model/model.py"],
     synth := false },
   { uses := ["SampleFile", "project", "readTemplate", "moduleName"],
     binds := [], registers := ["src/$\x7bmoduleName\x7d/data/datamodule.py"],
     synth := false },
   { uses := ["SampleFile", "project", "readTemplate", "moduleName"],
     binds := [], registers := ["src/$\x7bmoduleName\x7d/register_model.py"],
     synth := false },
   { uses := ["SampleFile", "project", "readTemplate", "moduleName"],
     binds := [], registers := ["src/$\x7bmoduleName\x7d/data/preprocess.py"],
     synth := false },
   { uses := ["SampleFile", "project", "readTemplate", "moduleName"],
     binds := [], registers := ["src/$\x7bmoduleName\x7d/train.py"],
     synth := false },
   { uses := ["SampleFile", "project", "readTemplate", "moduleName"],
     binds := [],
     registers := ["src/$\x7bmoduleName\x7d/export_and_benchmark.py"],
     synth := false },
   { uses := ["SampleFile", "project"], binds := [],
     registers := ["tests/test_basic.py"], synth := false },
   { uses := ["project"], binds := [], registers := [], synth := true }]

/-- The observable outcome of evaluating the script: the destination
paths of the file objects registered before any error, whether the synth
call executed, and the error that stopped evaluation, if any. -/
structure RunResult where
  registered : List String
  synthed : Bool
  error : Option ScriptError
deriving DecidableEq, Repr

/-- The identifiers bound before the first statement runs: the Node
globals the script touches and the hoisted readTemplate declaration. -/
def initialBound : List String :=
  ["require", "process", "console", "readTemplate"]

/-- Evaluate the statements in order: a statement whose first unbound
identifier is found stops the run with a ReferenceError naming it;
otherwise its bindings and registrations take effect and evaluation
continues. -/
def runStmts (bound registered : List String) : List Stmt → RunResult
  | [] => { registered := registered, synthed := false, error := none }
  | s :: rest =>
    match s.uses.find? (fun u => !(bound.contains u)) with
    | some u =>
      { registered := registered, synthed := false,
        error := some (ScriptError.referenceError u) }
    | none =>
      let r := runStmts (bound ++ s.binds) (registered ++ s.registers) rest
      if s.synth then { r with synthed := true } else r

/-- Source: one evaluation of src/.projenrc.js from the top. -/
def runScript : RunResult :=
  runStmts initialBound [] scriptStatements

/-- How a registered file object treats an existing file on synthesis. -/
inductive WriteMode where
  | alwaysRewrite
  | createIfAbsent
deriving DecidableEq, Repr

/-- Source: the constructor each registration uses — the five
configuration files are projen TextFiles (src/.projenrc.js lines 88-110),
managed files rewritten at every synthesis, and the stubs and the test
are SampleFiles (lines 115-151), written only when absent. No force flag
appears anywhere in the script. -/
def registrationModes : List (String × WriteMode) :=
  [("dvc.yaml", WriteMode.alwaysRewrite),
   ("params.yaml", WriteMode.alwaysRewrite),
   (".env.example", WriteMode.alwaysRewrite),
   (".circleci/config.yml", WriteMode.alwaysRewrite),
   ("Dockerfile", WriteMode.alwaysRewrite),
   ("src/$\x7bmoduleName\x7d/__init__.py", WriteMode.createIfAbsent),
   ("src/$\x7bmoduleName\x7d/data/__init__.py", WriteMode.createIfAbsent),
   ("src/$\x7bmoduleName\x7d/model/__init__.py", WriteMode.createIfAbsent),
   ("src/$\x7bmoduleName\x7d/model/model.py", WriteMode.createIfAbsent),
   ("src/$\x7bmoduleName\x7d/data/datamodule.py", WriteMode.createIfAbsent),
   ("src/$\x7bmoduleName\x7d/register_model.py", WriteMode.createIfAbsent),
   ("src/$\x7bmoduleName\x7d/data/preprocess.py", WriteMode.createIfAbsent),
   ("src/$\x7bmoduleName\x7d/train.py", WriteMode.createIfAbsent),
   ("src/$\x7bmoduleName\x7d/export_and_benchmark.py", WriteMode.createIfAbsent),
   ("tests/test_basic.py", WriteMode.createIfAbsent)]

/-- The pipeline-stage shape of the claims (the spec's PipelineStage data
model), used only to state the chaining property; the script itself never
parses its pipeline template into stages. -/
structure PipelineStage where
  name : String
  deps : List String
  outs : List String
deriving DecidableEq, Repr

/-- Walk the stages in order, checking every dependency path against the
accumulated available set extended by each stage's outputs. -/
def chainCheck : List String → List PipelineStage → Bool
  | _, [] => true
  | avail, s :: rest =>
    s.deps.all (fun d => avail.contains d) && chainCheck (avail ++ s.outs) rest

/-- The claimed subset property: every non-first stage's dependency paths
lie among the outputs of the preceding stages. -/
def nonFirstDepsFromPrecedingOuts : List PipelineStage → Bool
  | [] => true
  | s :: rest => chainCheck s.outs rest

/-- A dvc.yaml-style rendering of a path list. -/
def pathsText (ps : List String) : String :=
  String.join (ps.map (fun p => "      - " ++ p ++ "\n"))

/-- A dvc.yaml-style rendering of one stage. -/
def stageText (s : PipelineStage) : String :=
  "  " ++ s.name ++ ":\n    deps:\n" ++ pathsText s.deps ++
    "    outs:\n" ++ pathsText s.outs

/-- A dvc.yaml-style rendering of a stage list: the formalization bridge
from stage data to the template text the script would register
verbatim. -/
def stagesText (g : List PipelineStage) : String :=
  "stages:\n" ++ String.join (g.map stageText)

/-- A concrete inconsistent pipeline: the train stage depends on a path
no earlier stage outputs. -/
def badPipeline : List PipelineStage :=
  [{ name := "preprocess", deps := ["data/raw"], outs := ["data/processed"] },
   { name := "train", deps := ["data/wrong_path"],
     outs := ["models/model.ckpt"] }]

/-- A template store holding the inconsistent pipeline text at the
doubled path the dvc.yaml registration resolves (the only path that
registration would read). -/
def badStore : String → Option String :=
  fun p =>
    if p = "template_configs/template_configs/dvc.yaml" then
      some (stagesText badPipeline)
    else none

/-- A template body referencing the authorEmail placeholder, as the
Dockerfile template is documented to. -/
def emailBody : String := "LABEL maintainer=\x7b\x7b authorEmail \x7d\x7d"

/-- A substitution context with every mandatory key except authorEmail. -/
def ctxNoEmail : List (String × String) :=
  [("projectName", "new-cool-project-name"), ("moduleName", "my_ml_project"),
   ("authorName", "My Name")]

/-- C1 counterexample: rendering a template that references authorEmail
with a context omitting it completes normally — the unresolved token is
still present verbatim in the output and rendering raises nothing; the
only abort any run performs is the unbound-projen reference error, which
names no placeholder and no template path. -/
theorem unresolved_error_never_raised_counterexample :
    renderTemplate ctxNoEmail emailBody = emailBody ∧
    containsToken ("authorEmail") (renderTemplate ctxNoEmail emailBody) = true ∧
    runScript.error = some (ScriptError.referenceError "projen") := by
  decide

/-- C1 amended: the replacement loop performs no completeness check — a
placeholder whose name has no key in the context is left verbatim in the
rendered output and no error is raised for it: rendering with a context
none of whose keys occur in the body returns the body unchanged, so the
template referencing authorEmail keeps its token when authorEmail is
omitted; and no file is written on any run, though only because every run
aborts earlier on the unbound projen identifier. -/
theorem unresolved_placeholders_left_verbatim :
    (∀ reps content, (∀ p ∈ reps, containsToken p.1 content = false) →
      renderTemplate reps content = content) ∧
    renderTemplate ctxNoEmail emailBody = emailBody ∧
    containsToken ("authorEmail") emailBody = true ∧
    runScript.registered = [] := by
  refine ⟨?_, by decide, by decide, by decide⟩
  intro reps content h
  induction reps with
  | nil => rfl
  | cons kv rest ih =>
    have h0 : containsToken kv.1 content = false := h kv (List.mem_cons_self _ _)
    rw [containsToken] at h0
    unfold renderTemplate
    rw [List.foldl_cons, jsReplaceAll_no_occurrence _ _ _ h0]
    exact ih (fun p hp => h p (List.mem_cons_of_mem _ hp))

/-- C1 witness: the deficient context's keys do not occur in the
authorEmail template body, and rendering it returns the body unchanged. -/
theorem unresolved_placeholders_left_verbatim_witness :
    (∀ p ∈ ctxNoEmail, containsToken p.1 emailBody = false) ∧
    renderTemplate ctxNoEmail emailBody = emailBody :=
  ⟨by decide,
    unresolved_placeholders_left_verbatim.1 ctxNoEmail emailBody (by decide)⟩

/-- An environment supplying only the project name, as the concrete
scenario of the claim does. -/
def envNewCool : String → Option String :=
  fun k => if k = "PROJECT_NAME" then some "new-cool-project-name" else none

/-- C2 counterexample: with the project name new-cool-project-name and no
module-name override, the module name is the constant my_ml_project, not
the claimed derivation new_cool_project_name. -/
theorem moduleName_not_derived_counterexample :
    projectNameValue envNewCool = "new-cool-project-name" ∧
    moduleNameValue envNewCool = "my_ml_project" ∧
    moduleNameValue envNewCool ≠ "new_cool_project_name" := by
  decide

/-- C2 amended: when no module-name override is supplied the module name
is the constant my_ml_project, independent of the project name (no
derivation from the project name exists); when MODULE_NAME is set and
nonempty it is used verbatim; and the module name depends on the
environment only through MODULE_NAME. -/
theorem moduleName_fallback_constant (env env' : String → Option String) :
    (env ("MODULE_NAME") = none → moduleNameValue env = "my_ml_project") ∧
    (∀ v, env ("MODULE_NAME") = some v → ¬v = "" → moduleNameValue env = v) ∧
    (env ("MODULE_NAME") = env' ("MODULE_NAME") →
      moduleNameValue env = moduleNameValue env') := by
  refine ⟨?_, ?_, ?_⟩
  · intro h
    simp [moduleNameValue, jsOrString, h]
  · intro v h hv
    simp [moduleNameValue, jsOrString, h, hv]
  · intro h
    rw [moduleNameValue, moduleNameValue, h]

/-- C2 witness: the concrete scenario's environment has no module-name
override and the builder yields the constant. -/
theorem moduleName_fallback_constant_witness :
    envNewCool ("MODULE_NAME") = none ∧
    moduleNameValue envNewCool = "my_ml_project" :=
  ⟨by decide,
    (moduleName_fallback_constant envNewCool (fun _ => none)).1 (by decide)⟩

/-- C3: the checked-in manifest places the ONNX-export packages in the
core deps list, defines only the s3_storage and dev groups, and contains
no computer-vision extras anywhere — contradicting the dependency tables
of the repository's own documentation. -/
theorem export_deps_in_core_manifest :
    deps.contains ("onnx") = true ∧
    deps.contains ("onnxruntime-gpu") = true ∧
    optionalDependencies.map Prod.fst = ["s3_storage"] ∧
    devDependencies.map Prod.fst = ["pytest", "pytest-cov"] ∧
    (["timm", "albumentations", "pycocotools"].all
      (fun n => !(deps.contains n) &&
        optionalDependencies.all (fun g => !(g.2.contains n)))) = true := by
  decide

/-- C4: no run reaches synthesis — every evaluation stops at the unbound
projen reference with nothing registered and the synth call never
executes — and the five configuration files are, in the unreachable
registrations, managed TextFiles rewritten at every synthesis: no
skip-on-existing mode and no force flag exist for them. -/
theorem no_idempotent_skip_semantics :
    runScript.error = some (ScriptError.referenceError "projen") ∧
    runScript.synthed = false ∧
    runScript.registered = [] ∧
    registrationModes.lookup ("dvc.yaml") = some WriteMode.alwaysRewrite ∧
    registrationModes.lookup ("params.yaml") = some WriteMode.alwaysRewrite ∧
    registrationModes.lookup (".env.example") = some WriteMode.alwaysRewrite ∧
    registrationModes.lookup (".circleci/config.yml") =
      some WriteMode.alwaysRewrite ∧
    registrationModes.lookup ("Dockerfile") = some WriteMode.alwaysRewrite := by
  decide

/-- A context whose first entry's value contains the second entry's
placeholder token. -/
def ctxAB1 : List (String × String) :=
  [("a", "\x7b\x7b b \x7d\x7d"), ("b", "X")]

/-- The same pairs in the opposite order. -/
def ctxAB2 : List (String × String) :=
  [("b", "X"), ("a", "\x7b\x7b b \x7d\x7d")]

/-- C5: sequential replacement is order-dependent — the two orderings of
the same key-value pairs render the same body to different results, since
a substituted value containing another placeholder token is rescanned by
the later pass in one order and not in the other. -/
theorem render_order_dependent :
    ctxAB1.Perm ctxAB2 ∧
    (ctxAB1.map Prod.fst).Nodup ∧
    renderTemplate ctxAB1 ("\x7b\x7b a \x7d\x7d") = "X" ∧
    renderTemplate ctxAB2 ("\x7b\x7b a \x7d\x7d") = "\x7b\x7b b \x7d\x7d" ∧
    renderTemplate ctxAB1 ("\x7b\x7b a \x7d\x7d") ≠
      renderTemplate ctxAB2 ("\x7b\x7b a \x7d\x7d") := by
  decide

/-- C6: rendering the template text made of the delimited projectName
placeholder followed by -build, with projectName mapped to foo, produces
exactly foo-build (foo contains no dollar pattern, so it is inserted
verbatim). -/
theorem render_projectName_build :
    renderTemplate [("projectName", "foo")]
      ("\x7b\x7b projectName \x7d\x7d-build") = "foo-build" := by
  decide

set_option maxRecDepth 4096 in
/-- C7: the script performs no pipeline validation — a template whose
train stage depends on a path no earlier stage outputs is read (from the
doubled path) and substituted verbatim with no rejection, and every run
stops at the unbound projen reference, which is no
InconsistentPipelinePath check, before the dvc.yaml registration. -/
theorem pipeline_emitted_without_validation :
    nonFirstDepsFromPrecedingOuts badPipeline = false ∧
    readTemplate badStore ("template_configs/dvc.yaml")
        [("moduleName", "my_ml_project")] = some (stagesText badPipeline) ∧
    runScript.error = some (ScriptError.referenceError "projen") ∧
    runScript.registered = [] := by
  decide

/-- An environment setting AUTHOR_MAIL to an e-mail address. -/
def envJane : String → Option String :=
  fun k => if k = "AUTHOR_MAIL" then some "jane@example.com" else none

/-- C8: the bitwise or of line 18 makes authorEmail the number 0 — for an
unset AUTHOR_MAIL and for an e-mail-address value alike — never the
environment string and never the default string. -/
theorem author_email_bitwise_or_yields_zero :
    authorEmailValue (fun _ => none) = JsValue.num 0 ∧
    authorEmailValue envJane = JsValue.num 0 ∧
    JsValue.num 0 ≠ JsValue.str "my-email@email.com" ∧
    JsValue.num 0 ≠ JsValue.str "jane@example.com" := by
  decide

/-- C9: every top-level configuration template argument, which already
carries the template_configs/ segment, is joined under template_configs a
second time by readTemplate, so the path actually resolved is the doubled
one and differs from the logical path named at the call site; the
source-stub arguments carry no such segment and resolve to a single
template_configs/ joining. -/
theorem config_templates_doubled_path :
    configTemplateArgs.map templatePath =
      ["template_configs/template_configs/dvc.yaml",
       "template_configs/template_configs/params.yaml",
       "template_configs/template_configs/environment.env",
       "template_configs/template_configs/circleci_config.yml",
       "template_configs/template_configs/Dockerfile"] ∧
    (configTemplateArgs.all (fun a => !(templatePath a == a))) = true ∧
    stubTemplateArgs.map templatePath =
      ["template_configs/src/model/model.py",
       "template_configs/src/data/datamodule.py",
       "template_configs/src/register_model.py",
       "template_configs/src/data/preprocess.py",
       "template_configs/src/train.py",
       "template_configs/src/export_and_benchmark.py"] := by
  decide

/-- C10: every evaluation of the script dereferences the unbound
identifier projen and stops there with a ReferenceError, before any file
object is registered and before the synth call executes — so no generated
file is ever written. -/
theorem script_unbound_projen_aborts :
    runScript.error = some (ScriptError.referenceError "projen") ∧
    runScript.registered = [] ∧
    runScript.synthed = false := by
  decide

end Projenrc
